import Mathlib

/-!
Verification of the multi-source tile compositor and value-quantization
pipeline of `terracotta-for-highresnowc`, shallowly embedded from
`src/terracotta/handlers/kiyomasa.py`, `src/terracotta/handlers/highresnowc.py`
and `src/terracotta/server/kiyomasa.py`.

Conventions of the embedding:
* Python strings are embedded as `List Char` (`Str`), so that splitting on
  commas is a structural recursion the kernel can evaluate.
* A numpy masked array is a `MaskedGrid`: per-pixel data plus a per-pixel
  boolean no-data mask over an abstract index type `ι` (all array operations
  in the source are pointwise except the `repeat` enlargement, which is
  modelled separately on `List (List Nat)`).
* Raw pixel values come from uint16 COGs and are integers; the float64
  expressions `np.floor((x - 10) * 0.1)` and `np.floor((x - 500) * 0.01)`
  on such integers are exact and equal the integer divisions `(x - 10) / 10`
  and `(x - 500) / 100` for the whole uint16 range (0.1 and 0.01 round up
  as doubles, and the products stay well within half an ulp of the rational
  value), so the quantizers are embedded with `Nat` division.
* `astype(np.uint8)` / `astype(np.uint16)` are reduction mod 2^8 / 2^16.
* The storage driver and `xyz.tile_exists` are the external collaborators of
  spec section 6: they are parameters (`md` for `get_metadata`, where `none`
  plays `DatasetNotFoundError`; `tex` for the bounds/tile intersection test;
  `fetch` for `xyz.get_tile_data`, returning `Except` to model a fetch that
  may fail).
-/

namespace Terracotta

/-- Python strings, embedded as lists of characters. -/
abbrev Str := List Char

/-- Python `s.split(',')`: `"a,b" ↦ ["a", "b"]`, `"" ↦ [""]`. -/
def splitComma : Str → List Str
  | [] => [[]]
  | c :: cs =>
    if c = ',' then [] :: splitComma cs
    else
      match splitComma cs with
      | [] => [[c]]
      | t :: ts => (c :: t) :: ts

/-- A numpy masked array over pixel index type `ι`: data plus a parallel
no-data mask (`mask i = true` means pixel `i` is masked / has no data). -/
structure MaskedGrid (ι : Type) where
  data : ι → Nat
  mask : ι → Bool

/-- Geographic bounds of a dataset, `metadata['bounds']`
(WGS84 rectangle; the intersection test itself is an external collaborator). -/
structure GeoBounds where
  west : Int
  south : Int
  east : Int
  north : Int

/-- `np.ma.array(np.zeros(tile_size), mask=True)`
(kiyomasa.py line 48): the canvas starts all zero and fully masked. -/
def empty_canvas (ι : Type) : MaskedGrid ι :=
  ⟨fun _ => 0, fun _ => true⟩

/-- kiyomasa.py lines 83-84:
`tile_data.data[~out.mask] = out.data[~out.mask]` and
`tile_data.mask[~out.mask] = out.mask[~out.mask]` — wherever the fetched grid
`out` is unmasked, its value is copied into the canvas and the canvas pixel is
unmasked; wherever `out` is masked the canvas pixel is untouched. -/
def overwrite_merge {ι : Type} (canvas out : MaskedGrid ι) : MaskedGrid ι where
  data := fun i => if out.mask i then canvas.data i else out.data i
  mask := fun i => if out.mask i then canvas.mask i else false

/-- highresnowc.py line 70: `tile_data = np.maximum(tile_data, tdata)`.
`np.maximum` computes on the underlying data of a masked array (and the final
PNG is built from the underlying data: `np.where`, `astype` and
`Image.fromarray` all consume `.data`), so the merge is a pointwise maximum of
the canvas data with the grid's stored data, with no regard to the mask. -/
def maximum_merge {ι : Type} (canvas : ι → Nat) (g : MaskedGrid ι) : ι → Nat :=
  fun i => max (canvas i) (g.data i)

/-- kiyomasa.py lines 56-59: enumeration order of the `(x, y)` section pairs,
outer loop over `sections_x`, inner loop over `sections_y`. -/
def section_pairs (sx sy : List Str) : List (Str × Str) :=
  sx.flatMap fun x => sy.map fun y => (x, y)

/-- kiyomasa.py lines 56-70, issuance phase: for each section pair in
enumeration order, look up metadata (`none` = `DatasetNotFoundError`, caught
by the `except ... continue` at lines 62-63), test tile intersection
(lines 65-66, skip on failure) and otherwise issue the asynchronous fetch
(lines 67-70); the future's result-or-error is stored without being
inspected. -/
def futures_of_pairs {ι E : Type} (md : Str × Str → Option GeoBounds)
    (tex : GeoBounds → Bool) (fetch : Str × Str → Except E (MaskedGrid ι)) :
    List (Str × Str) → List ((Str × Str) × Except E (MaskedGrid ι)) :=
  List.filterMap fun k =>
    match md k with
    | none => none
    | some b => if tex b then some (k, fetch k) else none

/-- kiyomasa.py lines 73-85, collection phase: walk the issued futures in
enumeration order (the dict lookup at line 76 recovers insertion order for
distinct section pairs); `f.result()` at line 79 re-raises the first failed
fetch's exception, otherwise the grid is merged into the canvas with the
overwrite rule of lines 83-84. -/
def collect_tiles {ι E : Type} :
    MaskedGrid ι → List ((Str × Str) × Except E (MaskedGrid ι)) →
      Except E (MaskedGrid ι)
  | canvas, [] => .ok canvas
  | _, (_, .error e) :: _ => .error e
  | canvas, (_, .ok out) :: rest => collect_tiles (overwrite_merge canvas out) rest

/-- kiyomasa.py lines 40-88, `get_tile_data_from_multi_cogs`: issue all
fetches for the intersecting section pairs, then collect them in enumeration
order onto the initially fully-masked canvas. -/
def get_tile_data_from_multi_cogs {ι E : Type}
    (md : Str × Str → Option GeoBounds) (tex : GeoBounds → Bool)
    (fetch : Str × Str → Except E (MaskedGrid ι)) (sx sy : List Str) :
    Except E (MaskedGrid ι) :=
  collect_tiles (empty_canvas ι) (futures_of_pairs md tex fetch (section_pairs sx sy))

/-- highresnowc.py line 48: `max_resolution = max(resolutions)`
(Python `max` of a nonempty list of naturals, folded from 0). -/
def max_resolution (rs : List Nat) : Nat := rs.foldl max 0

/-- highresnowc.py lines 55-57: a resolution is kept unless
`res != max_resolution and max_resolution % res != 0`; that is, kept iff
`res == max_resolution` or `max_resolution % res == 0`.  (For `r = 0` the
Python code would raise `ZeroDivisionError`, so the embedding is faithful
for positive resolutions.) -/
def resolution_kept (maxRes r : Nat) : Bool :=
  r == maxRes || maxRes % r == 0

/-- The resolutions actually queried by the loop at highresnowc.py
lines 54-57, in list order. -/
def queried_resolutions (rs : List Nat) : List Nat :=
  rs.filter fun r => resolution_kept (max_resolution rs) r

/-- highresnowc.py lines 50-58: enumeration order of the concrete
`(x, y, res)` key-sets (outer `sections_x`, then `sections_y`, then the
filtered resolutions). -/
def highresnowc_entries (sx sy : List Str) (rs : List Nat) :
    List (Str × Str × Nat) :=
  sx.flatMap fun x => sy.flatMap fun y =>
    (queried_resolutions rs).map fun r => (x, y, r)

/-- Error surfaced by the highresnowc composite: the unguarded
`driver.get_metadata(keys)` at highresnowc.py line 59 lets
`DatasetNotFoundError` propagate. -/
inductive HrnError where
  | datasetNotFound
deriving DecidableEq

/-- highresnowc.py lines 49-70, composite loop: for each concrete key-set in
enumeration order, the metadata lookup has no `try`/`except`
(line 59: a missing dataset aborts the whole request), non-intersecting
key-sets are skipped (lines 61-62), and fetched grids are merged with
`np.maximum` (line 70).  (The resolution reconciliation at lines 67-69
computes `tdata.repeat(scale, ...)` but discards the result, so the fetched
grid is merged unchanged; see `reconciled_tdata`.) -/
def highresnowc_loop {ι : Type} (md : Str × Str × Nat → Option GeoBounds)
    (tex : GeoBounds → Bool) (fetch : Str × Str × Nat → MaskedGrid ι) :
    List (Str × Str × Nat) → (ι → Nat) → Except HrnError (ι → Nat)
  | [], canvas => .ok canvas
  | k :: rest, canvas =>
    match md k with
    | none => .error .datasetNotFound
    | some b =>
      if tex b then
        highresnowc_loop md tex fetch rest (maximum_merge canvas (fetch k))
      else
        highresnowc_loop md tex fetch rest canvas

/-- highresnowc.py lines 41-70: the merged (pre-quantization) canvas, starting
from `np.zeros` (line 41). -/
def highresnowc_tile_data {ι : Type} (md : Str × Str × Nat → Option GeoBounds)
    (tex : GeoBounds → Bool) (fetch : Str × Str × Nat → MaskedGrid ι)
    (sx sy : List Str) (rs : List Nat) : Except HrnError (ι → Nat) :=
  highresnowc_loop md tex fetch (highresnowc_entries sx sy rs) (fun _ => 0)

/-- kiyomasa.py lines 110-112, the `Pri60lv` piecewise precipitation table:
`out = np.where((10 <= tile) & (tile < 500), np.floor((tile - 10) * 0.1) + 10, tile)`,
`out = np.where((500 <= out) & (out < 20000), np.floor((out - 500) * 0.01) + 59, out)`,
`out = np.where(20000 <= out, 254, out)`. -/
def Pri60lv_quantize (v : Nat) : Nat :=
  let o1 := if 10 ≤ v ∧ v < 500 then (v - 10) / 10 + 10 else v
  let o2 := if 500 ≤ o1 ∧ o1 < 20000 then (o1 - 500) / 100 + 59 else o1
  if 20000 ≤ o2 then 254 else o2

/-- kiyomasa.py lines 108-115, one pixel of the `Pri60lv` output: the
piecewise transform, then `out[tile.mask] = np.iinfo(np.uint8).max`
(line 114) writes 255 at masked pixels, then `astype(np.uint8)`. -/
def Pri60lv_pixel (m : Bool) (v : Nat) : Nat :=
  (if m then 255 else Pri60lv_quantize v) % 256

/-- highresnowc.py line 79:
`out = np.where(tile_data == nodata_value, 0, tile_data)` with
`nodata_value = np.iinfo(np.uint16).max`.  The merged `tile_data` is a
masked array (the mask is propagated through `np.maximum` by OR), and
`MaskedArray.__eq__` against the unmasked scalar 65535 sets the comparison's
underlying boolean data to False wherever `tile_data` is masked (one side
masked counts as unequal); `np.where` consumes that underlying data.  So the
remap to 0 applies only at unmasked pixels whose value is 65535; a masked
pixel keeps its stored data.  `m` is the canvas mask at the pixel, `v` its
stored data. -/
def highresnowc_stage0 (m : Bool) (v : Nat) : Nat :=
  if m then v else if v = 65535 then 0 else v

/-- highresnowc.py line 82:
`out = np.where((10 <= out) & (out < 500), np.floor((out - 10) * 0.1) + 10, out)`. -/
def highresnowc_stage1 (v : Nat) : Nat :=
  if 10 ≤ v ∧ v < 500 then (v - 10) / 10 + 10 else v

/-- highresnowc.py line 83:
`out = np.where((500 <= out) & (out <= 19900), np.floor((out - 500) * 0.01) + 59, out)`. -/
def highresnowc_stage2 (v : Nat) : Nat :=
  if 500 ≤ v ∧ v ≤ 19900 then (v - 500) / 100 + 59 else v

/-- highresnowc.py lines 78-84, the full quantization chain, ending with
`out = np.where(19901 <= out, 253, out)` (line 84).  After line 79 the
result `out` is a plain array, so only stage 0 depends on the canvas
mask `m`. -/
def highresnowc_quantize (m : Bool) (v : Nat) : Nat :=
  if 19901 ≤ highresnowc_stage2 (highresnowc_stage1 (highresnowc_stage0 m v)) then 253
  else highresnowc_stage2 (highresnowc_stage1 (highresnowc_stage0 m v))

/-- highresnowc.py lines 78-85, one output pixel of the merged canvas with
mask `m` and stored data `v`: the quantization chain then
`out.astype(np.uint8)` (line 85; `Image.fromarray` consumes the underlying
data). -/
def highresnowc_pixel (m : Bool) (v : Nat) : Nat :=
  highresnowc_quantize m v % 256

/-- kiyomasa.py lines 126-132, one pixel of the `Pphw10` output: the sentinel
write at lines 128-129 is commented out in the source, so the output is just
`tile.astype(np.uint8)` of the canvas data — the mask has no effect. -/
def Pphw10_pixel (_m : Bool) (v : Nat) : Nat :=
  v % 256

/-- kiyomasa.py lines 180-184, one pixel of the `CWM_direction` output:
`tile[tile.mask] = np.iinfo(np.uint8).max` then `astype(np.uint8)`. -/
def CWM_direction_pixel (m : Bool) (v : Nat) : Nat :=
  (if m then 255 else v) % 256

/-- kiyomasa.py lines 217-221, one pixel of the `MSM_temp` output:
`tile[tile.mask] = np.iinfo(np.uint16).max` then `astype(np.uint16)`. -/
def MSM_temp_pixel (m : Bool) (v : Nat) : Nat :=
  (if m then 65535 else v) % 65536

/-- kiyomasa.py lines 49-59, the effect of the composite loop on the
caller-supplied `keys` list: the section lists are split from the original
compound fields (lines 51-52), then the loop assigns each enumerated concrete
value into the same list in place (`keys[section_x_idx] = x` at line 57,
`keys[section_y_idx] = y` at line 59); nothing restores the original strings,
so this is the state of the caller's list after the handler returns.
(highresnowc.py lines 45-58 mutate the same way, with a third `resolution`
field.) -/
def kiyomasa_keys_after (keys : List Str) (sxIdx syIdx : Nat) : List Str :=
  let sectionsX := splitComma (keys.getD sxIdx [])
  let sectionsY := splitComma (keys.getD syIdx [])
  sectionsX.foldl
    (fun ks x => sectionsY.foldl (fun ks2 y => ks2.set syIdx y) (ks.set sxIdx x))
    keys

/-- numpy `tdata.repeat(scale, axis=0)`: every row of the grid is repeated
`scale` times in place. -/
def repeat_axis0 (scale : Nat) (g : List (List Nat)) : List (List Nat) :=
  g.flatMap fun row => List.replicate scale row

/-- numpy `tdata.repeat(scale, axis=1)`: every element of every row is
repeated `scale` times in place. -/
def repeat_axis1 (scale : Nat) (g : List (List Nat)) : List (List Nat) :=
  g.map fun row => row.flatMap fun v => List.replicate scale v

/-- highresnowc.py lines 67-69, the resolution reconciliation applied to a
fetched grid before the merge at line 70:

  `if res != max_resolution:`
  `    scale = max_resolution / res`
  `    tdata.repeat(scale, axis=0).repeat(scale, axis=1)`

The enlarged grid is computed (line 69) but the expression's value is never
assigned to anything, so the grid handed to the merge is the original
`tdata`. -/
def reconciled_tdata (res maxRes : Nat) (tdata : List (List Nat)) :
    List (List Nat) :=
  if res ≠ maxRes then
    let scale := maxRes / res
    let _ := repeat_axis1 scale (repeat_axis0 scale tdata)
    tdata
  else tdata

end Terracotta

namespace Terracotta

/-- Helper for C1 and C10: the highresnowc quantization chain is bounded by
253 for every mask state and every stored value. -/
theorem highresnowc_quantize_le (m : Bool) (v : Nat) :
    highresnowc_quantize m v ≤ 253 := by
  unfold highresnowc_quantize highresnowc_stage2 highresnowc_stage1
    highresnowc_stage0
  split_ifs <;> omega

/-- C10 counterexample: the claim says every merged pixel whose raw value
equals 65535 is emitted as output 0; but at a masked canvas pixel the
comparison of highresnowc.py line 79 has underlying data False (numpy
`MaskedArray.__eq__` treats one-side-masked as unequal), so the masked pixel
carrying the uint16 fill 65535 bypasses the 0-remap and is emitted as 253. -/
theorem c10_counterexample :
    highresnowc_pixel true 65535 = 253 ∧ (253 : Nat) ≠ 0 := by
  exact ⟨by decide, by decide⟩

/-- C10 (amended): an unmasked merged highresnowc pixel whose raw value
equals the uint16 no-data code 65535 is emitted as output 0, while a masked
pixel carrying the fill 65535 bypasses the line-79 remap and is emitted as
253; every output pixel is at most 253, so the 8-bit sentinel 255 never
appears in highresnowc output for any input. -/
theorem c10_amended :
    highresnowc_pixel false 65535 = 0 ∧
      highresnowc_pixel true 65535 = 253 ∧
      (∀ (m : Bool) (v : Nat), highresnowc_pixel m v ≤ 253) ∧
      (∀ (m : Bool) (v : Nat), highresnowc_pixel m v ≠ 255) := by
  refine ⟨by decide, by decide, fun m v => ?_, fun m v h => ?_⟩
  · have := highresnowc_quantize_le m v
    unfold highresnowc_pixel
    omega
  · have := highresnowc_quantize_le m v
    unfold highresnowc_pixel at h
    omega

/-- C1 counterexample: the claim asserts that every masked/no-data pixel of
the 8-bit precipitation quantization is emitted as the sentinel 255, and it
cites highresnowc.py lines 78-85 — but there a masked canvas pixel carrying
the uint16 fill 65535 skips the line-79 remap (numpy `MaskedArray.__eq__`
sets the comparison's underlying data to False at masked pixels) and is
emitted as 253, not 255. -/
theorem c1_counterexample :
    highresnowc_pixel true 65535 = 253 ∧ (253 : Nat) ≠ 255 := by
  exact ⟨by decide, by decide⟩

/-- C1 (amended): the 8-bit precipitation quantizers map raw 0 to 0, 10 to
10, 500 to 59 and 19901 to 253 in both `Pri60lv` and `highresnowc` (at
unmasked pixels); in `Pri60lv` every masked pixel is written as the sentinel
255, while `highresnowc` never emits 255: an unmasked raw 65535 is remapped
to 0 and a masked pixel carrying the fill 65535 is emitted as 253. -/
theorem c1_amended :
    Pri60lv_pixel false 0 = 0 ∧ Pri60lv_pixel false 10 = 10 ∧
      Pri60lv_pixel false 500 = 59 ∧ Pri60lv_pixel false 19901 = 253 ∧
      (∀ v : Nat, Pri60lv_pixel true v = 255) ∧
      highresnowc_pixel false 0 = 0 ∧ highresnowc_pixel false 10 = 10 ∧
      highresnowc_pixel false 500 = 59 ∧
      highresnowc_pixel false 19901 = 253 ∧
      highresnowc_pixel false 65535 = 0 ∧
      highresnowc_pixel true 65535 = 253 ∧
      (∀ (m : Bool) (v : Nat), highresnowc_pixel m v ≠ 255) := by
  refine ⟨by decide, by decide, by decide, by decide, fun v => rfl,
    by decide, by decide, by decide, by decide, by decide, by decide,
    fun m v h => ?_⟩
  have := highresnowc_quantize_le m v
  unfold highresnowc_pixel at h
  omega

/-- C2 counterexample: the claim asserts that masked pixels of a grid never
change the canvas, but the Maximum merge of highresnowc.py line 70
(`np.maximum`) uses the grid's underlying data regardless of its mask: a
masked pixel whose stored data is the uint16 no-data fill 65535 overwrites a
canvas value of 500. -/
theorem c2_counterexample :
    maximum_merge (fun _ => 500) ⟨fun _ => 65535, fun _ => true⟩ () = 65535 ∧
      (MaskedGrid.mask ⟨fun _ => 65535, fun _ => true⟩) () = true ∧
      (65535 : Nat) ≠ 500 := by
  exact ⟨rfl, rfl, by decide⟩

/-- C2 (amended): at a pixel unmasked in grids `A` then `B`, the Overwrite
merge yields `B`'s value (and unmasks the canvas pixel) and the Maximum merge
over the zero-initialised canvas yields `max(A, B)`; masked pixels never
change the canvas under the Overwrite merge, but the Maximum merge ignores
the mask and takes the maximum with the grid's stored data. -/
theorem c2_amended {ι : Type} (canvas A B : MaskedGrid ι) (i : ι)
    (_hA : A.mask i = false) (hB : B.mask i = false) :
    (overwrite_merge (overwrite_merge canvas A) B).data i = B.data i ∧
      (overwrite_merge (overwrite_merge canvas A) B).mask i = false ∧
      (∀ g : MaskedGrid ι, g.mask i = true →
        (overwrite_merge canvas g).data i = canvas.data i ∧
          (overwrite_merge canvas g).mask i = canvas.mask i) ∧
      maximum_merge (maximum_merge (fun _ => 0) A) B i =
        max (A.data i) (B.data i) := by
  refine ⟨?_, ?_, ?_, ?_⟩
  · simp [overwrite_merge, hB]
  · simp [overwrite_merge, hB]
  · intro g hg
    constructor <;> simp [overwrite_merge, hg]
  · simp [maximum_merge]

/-- C2 witness: the amended merge facts evaluated on concrete one-pixel
grids with values 3 then 8. -/
theorem c2_amended_witness :
    (overwrite_merge (overwrite_merge (empty_canvas Unit)
        ⟨fun _ => 3, fun _ => false⟩) ⟨fun _ => 8, fun _ => false⟩).data () = 8 ∧
      maximum_merge (maximum_merge (fun _ => 0) ⟨fun _ => 3, fun _ => false⟩)
        ⟨fun _ => 8, fun _ => false⟩ () = 8 := by
  have h := c2_amended (ι := Unit) (empty_canvas Unit)
    ⟨fun _ => 3, fun _ => false⟩ ⟨fun _ => 8, fun _ => false⟩ () rfl rfl
  exact ⟨h.1, h.2.2.2⟩

/-- C4: the claim says the grid merged into the canvas equals the original
grid enlarged by nearest-neighbor repetition with factor `maxRes / res`; the
code computes that enlargement at highresnowc.py line 69 but discards it, so
for a 1-by-1 grid at resolution 5 under maximum resolution 10 the merged grid
is the original `[[7]]`, not the enlargement `[[7, 7], [7, 7]]`. -/
theorem c4_repeat_discarded :
    reconciled_tdata 5 10 [[7]] = [[7]] ∧
      repeat_axis1 (10 / 5) (repeat_axis0 (10 / 5) [[7]]) = [[7, 7], [7, 7]] ∧
      ([[7]] : List (List Nat)) ≠ [[7, 7], [7, 7]] := by
  refine ⟨by decide, by decide, by decide⟩

/-- Helper for C3: when every key-set of the list is skipped (metadata found
but the tile intersection test fails), the highresnowc loop returns its
canvas unchanged. -/
theorem highresnowc_loop_all_skipped {ι : Type}
    (md : Str × Str × Nat → Option GeoBounds) (tex : GeoBounds → Bool)
    (fetch : Str × Str × Nat → MaskedGrid ι) :
    ∀ (l : List (Str × Str × Nat)) (canvas : ι → Nat),
      (∀ k ∈ l, ∃ b, md k = some b ∧ tex b = false) →
      highresnowc_loop md tex fetch l canvas = .ok canvas := by
  intro l
  induction l with
  | nil => intro canvas _; rfl
  | cons k rest ih =>
    intro canvas h
    obtain ⟨b, hb, htex⟩ := h k (List.mem_cons_self k rest)
    have hrest : ∀ k2 ∈ rest, ∃ b2, md k2 = some b2 ∧ tex b2 = false :=
      fun k2 hk2 => h k2 (List.mem_cons_of_mem k hk2)
    simp only [highresnowc_loop, hb, htex]
    exact ih canvas hrest

/-- C3 counterexample: the claim says a request in which no concrete
key-set's bounds intersect the tile fails with TileOutOfBounds, but the
kiyomasa composite of one section pair whose metadata exists and whose
intersection test fails returns the fully masked canvas as a success. -/
theorem c3_counterexample :
    get_tile_data_from_multi_cogs (ι := Unit) (E := Unit)
        (fun _ => some ⟨130, 30, 140, 40⟩) (fun _ => false)
        (fun _ => .ok ⟨fun _ => 5, fun _ => false⟩) [['a']] [['b']] =
      .ok (empty_canvas Unit) ∧
      (empty_canvas Unit).mask () = true := by
  exact ⟨rfl, rfl⟩

/-- C3 (amended): when no concrete key-set's bounds intersect the requested
tile, the composite returns an all-nodata canvas as a success — kiyomasa
returns the initial fully masked canvas and highresnowc (when every metadata
lookup succeeds) returns the all-zero canvas; TileOutOfBounds is not
raised. -/
theorem c3_amended {ι E : Type} (md : Str × Str → Option GeoBounds)
    (tex : GeoBounds → Bool) (fetch : Str × Str → Except E (MaskedGrid ι))
    (sx sy : List Str) (md2 : Str × Str × Nat → Option GeoBounds)
    (fetch2 : Str × Str × Nat → MaskedGrid ι) (sx2 sy2 : List Str)
    (rs : List Nat)
    (h1 : ∀ k ∈ section_pairs sx sy, ∀ b, md k = some b → tex b = false)
    (h2 : ∀ k ∈ highresnowc_entries sx2 sy2 rs,
      ∃ b, md2 k = some b ∧ tex b = false) :
    get_tile_data_from_multi_cogs md tex fetch sx sy = .ok (empty_canvas ι) ∧
      highresnowc_tile_data md2 tex fetch2 sx2 sy2 rs = .ok (fun _ => 0) := by
  constructor
  · have hfut : futures_of_pairs md tex fetch (section_pairs sx sy) = [] := by
      rw [futures_of_pairs, List.filterMap_eq_nil_iff]
      intro k hk
      cases hmd : md k with
      | none => rfl
      | some b => simp [hmd, h1 k hk b hmd]
    rw [get_tile_data_from_multi_cogs, hfut]
    rfl
  · exact highresnowc_loop_all_skipped md2 tex fetch2 _ _ h2

/-- C3 witness: both composites evaluated on a concrete non-intersecting
request (one section pair, a constantly-false intersection test). -/
theorem c3_amended_witness :
    get_tile_data_from_multi_cogs (ι := Unit) (E := Unit)
        (fun _ => some ⟨100, 20, 110, 30⟩) (fun _ => false)
        (fun _ => .ok ⟨fun _ => 9, fun _ => false⟩) [['c']] [['d']] =
      .ok (empty_canvas Unit) ∧
      highresnowc_tile_data (ι := Unit) (fun _ => some ⟨100, 20, 110, 30⟩)
        (fun _ => false) (fun _ => ⟨fun _ => 9, fun _ => false⟩)
        [['c']] [['d']] [10] = .ok (fun _ => 0) := by
  exact c3_amended (fun _ => some ⟨100, 20, 110, 30⟩) (fun _ => false)
    (fun _ => .ok ⟨fun _ => 9, fun _ => false⟩) [['c']] [['d']]
    (fun _ => some ⟨100, 20, 110, 30⟩) (fun _ => ⟨fun _ => 9, fun _ => false⟩)
    [['c']] [['d']] [10]
    (fun _ _ b hb => by cases hb; rfl)
    (fun k _ => ⟨⟨100, 20, 110, 30⟩, rfl, rfl⟩)

/-- C5 counterexample: the claim says every registered handler writes the
dtype maximum sentinel at masked pixels and keeps unmasked encodings strictly
below it; but `Pphw10` (its sentinel write is commented out at kiyomasa.py
lines 128-129) emits a masked pixel carrying canvas data 0 as 0, not 255, and
`CWM_direction` emits an unmasked raw 255 as 255, not strictly below the
sentinel. -/
theorem c5_counterexample :
    Pphw10_pixel true 0 = 0 ∧ (0 : Nat) ≠ 255 ∧
      CWM_direction_pixel false 255 = 255 := by
  refine ⟨rfl, by decide, rfl⟩

/-- C5 (amended): `CWM_direction` and `MSM_temp` do write the dtype maximum
sentinel (255 resp. 65535) at masked pixels after the transform; `Pphw10`
writes no sentinel — its output is independent of the mask and is just the
canvas data truncated to uint8; and unmasked encodings are not kept strictly
below the sentinel: an unmasked raw equal to the dtype maximum encodes to the
sentinel value itself. -/
theorem c5_amended :
    (∀ v : Nat, CWM_direction_pixel true v = 255) ∧
      (∀ v : Nat, MSM_temp_pixel true v = 65535) ∧
      (∀ (m : Bool) (v : Nat), Pphw10_pixel m v = Pphw10_pixel false v) ∧
      CWM_direction_pixel false 255 = 255 ∧
      MSM_temp_pixel false 65535 = 65535 := by
  exact ⟨fun v => rfl, fun v => rfl, fun m v => rfl, rfl, rfl⟩

/-- C6: a requested resolution `r` is queried iff `r = maxRes` or
`maxRes % r = 0` (any other `r` is silently dropped), and the request
`[5, 7, 10]` keeps exactly 10 and 5, dropping 7.  (The positivity hypothesis
records that the Python code would raise `ZeroDivisionError` on a requested
resolution of 0 rather than dropping it.) -/
theorem c6_resolution_filtering (rs : List Nat) (r : Nat) (_hr : 0 < r) :
    (r ∈ queried_resolutions rs ↔
      r ∈ rs ∧ (r = max_resolution rs ∨ max_resolution rs % r = 0)) ∧
      (∀ (x y : Str) (sx sy : List Str),
        (x, y, r) ∈ highresnowc_entries sx sy rs ↔
          x ∈ sx ∧ y ∈ sy ∧ r ∈ queried_resolutions rs) ∧
      queried_resolutions [5, 7, 10] = [5, 10] := by
  refine ⟨?_, ?_, by decide⟩
  · simp [queried_resolutions, List.mem_filter, resolution_kept,
      Bool.or_eq_true, beq_iff_eq, and_assoc]
  · intro x y sx sy
    simp only [highresnowc_entries, List.mem_flatMap, List.mem_map,
      Prod.mk.injEq]
    constructor
    · rintro ⟨a, ha, b, hb, c, hc, h1, h2, h3⟩
      subst h1; subst h2; subst h3
      exact ⟨ha, hb, hc⟩
    · rintro ⟨hx, hy, hr⟩
      exact ⟨x, hx, y, hy, r, hr, rfl, rfl, rfl⟩

/-- C6 witness: the filtering rule applied to the concrete request
`[5, 7, 10]` at resolution 7. -/
theorem c6_resolution_filtering_witness :
    (7 ∈ queried_resolutions [5, 7, 10] ↔
      7 ∈ [5, 7, 10] ∧
        (7 = max_resolution [5, 7, 10] ∨ max_resolution [5, 7, 10] % 7 = 0)) ∧
      (∀ (x y : Str) (sx sy : List Str),
        (x, y, 7) ∈ highresnowc_entries sx sy [5, 7, 10] ↔
          x ∈ sx ∧ y ∈ sy ∧ 7 ∈ queried_resolutions [5, 7, 10]) ∧
      queried_resolutions [5, 7, 10] = [5, 10] :=
  c6_resolution_filtering [5, 7, 10] 7 (by decide)

/-- Helper for C7: a section pair whose metadata lookup fails contributes
nothing to the issued futures — the futures list equals the one computed over
the enumeration with that pair filtered out. -/
theorem futures_skip_notfound {ι E : Type} (md : Str × Str → Option GeoBounds)
    (tex : GeoBounds → Bool) (fetch : Str × Str → Except E (MaskedGrid ι))
    (k0 : Str × Str) (h : md k0 = none) :
    ∀ pairs : List (Str × Str),
      futures_of_pairs md tex fetch pairs =
        futures_of_pairs md tex fetch (pairs.filter fun k => k ≠ k0) := by
  intro pairs
  induction pairs with
  | nil => rfl
  | cons k rest ih =>
    simp only [futures_of_pairs] at ih ⊢
    by_cases hk : k = k0
    · subst hk
      simp only [List.filterMap_cons, h, List.filter_cons]
      simpa using ih
    · simp only [List.filterMap_cons, List.filter_cons]
      cases hmd : md k with
      | none => simp [hk, ih, List.filterMap_cons, hmd]
      | some b => simp [hk, hmd, ih, List.filterMap_cons]

/-- C7 counterexample: the claim says a key-set whose metadata lookup fails
with DatasetNotFound is skipped and the request continues with the remaining
key-sets; but in the highresnowc composite the missing first section aborts
the whole request even though a second, existing section follows. -/
theorem c7_counterexample :
    highresnowc_tile_data (ι := Unit)
        (fun k => if k.1 = ['a'] then none else some ⟨130, 30, 140, 40⟩)
        (fun _ => true) (fun _ => ⟨fun _ => 4, fun _ => false⟩)
        [['a'], ['b']] [['s']] [10] =
      .error .datasetNotFound := by
  rfl

/-- C7 (amended): the kiyomasa composite catches DatasetNotFound and skips
the key-set, continuing with the remaining ones (its result is that of the
enumeration with the missing pair removed); the highresnowc composite does
not guard its metadata lookup, so a missing dataset at the head of the
enumeration aborts the whole request regardless of the remaining entries. -/
theorem c7_amended {ι E : Type} (md : Str × Str → Option GeoBounds)
    (tex : GeoBounds → Bool) (fetch : Str × Str → Except E (MaskedGrid ι))
    (sx sy : List Str) (k0 : Str × Str) (h : md k0 = none)
    (md2 : Str × Str × Nat → Option GeoBounds)
    (fetch2 : Str × Str × Nat → MaskedGrid ι) (e0 : Str × Str × Nat)
    (rest : List (Str × Str × Nat)) (canvas : ι → Nat) (h2 : md2 e0 = none) :
    get_tile_data_from_multi_cogs md tex fetch sx sy =
        collect_tiles (empty_canvas ι)
          (futures_of_pairs md tex fetch
            ((section_pairs sx sy).filter fun k => k ≠ k0)) ∧
      highresnowc_loop md2 tex fetch2 (e0 :: rest) canvas =
        .error .datasetNotFound := by
  constructor
  · rw [get_tile_data_from_multi_cogs,
      futures_skip_notfound md tex fetch k0 h (section_pairs sx sy)]
  · simp [highresnowc_loop, h2]

/-- C7 witness: the amended behaviour evaluated on a concrete driver with no
datasets at all (sole kiyomasa pair skipped, highresnowc aborted). -/
theorem c7_amended_witness :
    get_tile_data_from_multi_cogs (ι := Unit) (E := Unit) (fun _ => none)
        (fun _ => true) (fun _ => .ok ⟨fun _ => 1, fun _ => false⟩)
        [['a']] [['b']] =
      collect_tiles (empty_canvas Unit)
        (futures_of_pairs (fun _ => none) (fun _ => true)
          (fun _ => .ok ⟨fun _ => 1, fun _ => false⟩)
          ((section_pairs [['a']] [['b']]).filter
            fun k => k ≠ (['a'], ['b']))) ∧
      highresnowc_loop (ι := Unit) (fun _ => none) (fun _ => true)
        (fun _ => ⟨fun _ => 1, fun _ => false⟩) [(['a'], ['b'], 10)]
        (fun _ => 0) = .error .datasetNotFound :=
  c7_amended (fun _ => none) (fun _ => true)
    (fun _ => .ok ⟨fun _ => 1, fun _ => false⟩) [['a']] [['b']]
    (['a'], ['b']) rfl (fun _ => none) (fun _ => ⟨fun _ => 1, fun _ => false⟩)
    (['a'], ['b'], 10) [] (fun _ => 0) rfl

/-- Helper for C8: the keys of the issued futures depend only on the metadata
and the intersection test, never on the outcome of any fetch. -/
theorem futures_keys_fetch_irrelevant {ι E : Type}
    (md : Str × Str → Option GeoBounds) (tex : GeoBounds → Bool)
    (fetch fetch2 : Str × Str → Except E (MaskedGrid ι)) :
    ∀ pairs : List (Str × Str),
      (futures_of_pairs md tex fetch pairs).map Prod.fst =
        (futures_of_pairs md tex fetch2 pairs).map Prod.fst := by
  intro pairs
  induction pairs with
  | nil => rfl
  | cons k rest ih =>
    simp only [futures_of_pairs] at ih ⊢
    simp only [List.filterMap_cons]
    cases md k with
    | none => exact ih
    | some b =>
      by_cases ht : tex b = true
      · simp only [ht, if_true, List.map_cons]
        exact congrArg (List.cons k) ih
      · simp only [Bool.not_eq_true] at ht
        simp only [ht, Bool.false_eq_true, if_false]
        exact ih

/-- Helper for C8: collecting a futures list whose first error sits after a
prefix of successful fetches surfaces exactly that error. -/
theorem collect_tiles_first_error {ι E : Type} (k : Str × Str) (e : E)
    (post : List ((Str × Str) × Except E (MaskedGrid ι))) :
    ∀ (pre : List ((Str × Str) × Except E (MaskedGrid ι)))
      (canvas : MaskedGrid ι),
      (∀ p ∈ pre, ∃ g, p.2 = Except.ok g) →
      collect_tiles canvas (pre ++ (k, Except.error e) :: post) =
        Except.error e := by
  intro pre
  induction pre with
  | nil => intro canvas _; rfl
  | cons p pre2 ih =>
    intro canvas hpre
    obtain ⟨g, hg⟩ := hpre p (List.mem_cons_self p pre2)
    obtain ⟨kp, rp⟩ := p
    simp only at hg
    subst hg
    simp only [List.cons_append, collect_tiles]
    exact ih _ fun q hq => hpre q (List.mem_cons_of_mem _ hq)

/-- C8: a failing fetch does not prevent sibling fetches from being issued
(the issued key list is the same whatever the fetch outcomes), and the first
fetch error in enumeration order is re-raised by the composite once the
issuance phase is complete — never silently dropped. -/
theorem c8_deferred_error {ι E : Type} (md : Str × Str → Option GeoBounds)
    (tex : GeoBounds → Bool) (fetch fetch2 : Str × Str → Except E (MaskedGrid ι))
    (sx sy : List Str) :
    ((futures_of_pairs md tex fetch (section_pairs sx sy)).map Prod.fst =
      (futures_of_pairs md tex fetch2 (section_pairs sx sy)).map Prod.fst) ∧
      (∀ (pre : List ((Str × Str) × Except E (MaskedGrid ι))) (k : Str × Str)
        (e : E) (post : List ((Str × Str) × Except E (MaskedGrid ι))),
        futures_of_pairs md tex fetch (section_pairs sx sy) =
          pre ++ (k, Except.error e) :: post →
        (∀ p ∈ pre, ∃ g, p.2 = Except.ok g) →
        get_tile_data_from_multi_cogs md tex fetch sx sy = Except.error e) := by
  constructor
  · exact futures_keys_fetch_irrelevant md tex fetch fetch2 (section_pairs sx sy)
  · intro pre k e post hsplit hpre
    rw [get_tile_data_from_multi_cogs, hsplit]
    exact collect_tiles_first_error k e post pre (empty_canvas ι) hpre

/-- C8 witness: a driver whose sole intersecting fetch fails with error 7;
the composite surfaces exactly that error. -/
theorem c8_deferred_error_witness :
    get_tile_data_from_multi_cogs (ι := Unit)
        (fun _ => some ⟨130, 30, 140, 40⟩) (fun _ => true)
        (fun _ => Except.error (7 : Nat)) [['a']] [['b']] =
      Except.error 7 :=
  (c8_deferred_error (fun _ => some ⟨130, 30, 140, 40⟩) (fun _ => true)
      (fun _ => Except.error (7 : Nat)) (fun _ => Except.error (7 : Nat))
      [['a']] [['b']]).2
    [] (['a'], ['b']) 7 [] rfl (fun p hp => absurd hp (List.not_mem_nil p))

/-- Helper for C9: splitting a comma-separated string always yields at least
one field. -/
theorem splitComma_ne_nil (s : Str) : splitComma s ≠ [] := by
  match s with
  | [] => simp [splitComma]
  | c :: cs =>
    simp only [splitComma]
    split
    · simp
    · split <;> simp

/-- Helper for C9: repeatedly assigning the elements of a nonempty list into
the same position leaves the last element there. -/
theorem foldl_set_last (i : Nat) :
    ∀ (l : List Str) (ks : List Str), l ≠ [] →
      l.foldl (fun a v => a.set i v) ks = ks.set i (l.getLastD []) := by
  intro l
  induction l with
  | nil => intro ks h; exact absurd rfl h
  | cons v rest ih =>
    intro ks _
    rcases rest with _ | ⟨w, t⟩
    · simp
    · rw [List.foldl_cons, ih (ks.set i v) (List.cons_ne_nil w t),
        List.set_set]
      simp only [List.getLastD_cons]

/-- Helper for C9: the doubly nested section loop leaves the last enumerated
`x` in the `section_x` slot and the last enumerated `y` in the `section_y`
slot. -/
theorem foldl_set_pairs_last (sxIdx syIdx : Nat) (hne : sxIdx ≠ syIdx)
    (ly : List Str) (hly : ly ≠ []) :
    ∀ (lx : List Str) (ks : List Str), lx ≠ [] →
      lx.foldl
          (fun a x => ly.foldl (fun b y => b.set syIdx y) (a.set sxIdx x)) ks =
        (ks.set sxIdx (lx.getLastD [])).set syIdx (ly.getLastD []) := by
  intro lx
  induction lx with
  | nil => intro ks h; exact absurd rfl h
  | cons x rest ih =>
    intro ks _
    rcases rest with _ | ⟨w, t⟩
    · rw [List.foldl_cons, List.foldl_nil,
        foldl_set_last syIdx ly (ks.set sxIdx x) hly]
      simp
    · rw [List.foldl_cons, ih _ (List.cons_ne_nil w t),
        foldl_set_last syIdx ly (ks.set sxIdx x) hly,
        List.set_comm _ _ _ hne.symm, List.set_set, List.set_set]
      simp only [List.getLastD_cons]

/-- C9 counterexample: the claim says the caller-supplied keys sequence is
unchanged after a render handler returns; but running the kiyomasa section
loop on keys whose compound fields are the strings `a,b` and `c,d` leaves
`b` and `d` in those slots — the mutated list differs from the original. -/
theorem c9_counterexample :
    kiyomasa_keys_after [['P'], ['a', ',', 'b'], ['c', ',', 'd']] 1 2 =
        [['P'], ['b'], ['d']] ∧
      ([['P'], ['b'], ['d']] : List Str) ≠
        [['P'], ['a', ',', 'b'], ['c', ',', 'd']] := by
  refine ⟨by decide, by decide⟩

/-- C9 (amended): the handlers mutate the caller-supplied keys sequence in
place — after the composite loops the `section_x` field holds the last entry
of its comma-separated list and the `section_y` field the last entry of its
list, so compound fields with more than one entry lose their original
string. -/
theorem c9_amended (keys : List Str) (sxIdx syIdx : Nat)
    (hne : sxIdx ≠ syIdx) :
    kiyomasa_keys_after keys sxIdx syIdx =
      (keys.set sxIdx ((splitComma (keys.getD sxIdx [])).getLastD [])).set
        syIdx ((splitComma (keys.getD syIdx [])).getLastD []) := by
  unfold kiyomasa_keys_after
  exact foldl_set_pairs_last sxIdx syIdx hne _ (splitComma_ne_nil _) _ keys
    (splitComma_ne_nil _)

/-- C9 witness: the amended mutation law evaluated on concrete keys with
compound field `x,y` at index 1 and singleton field `z` at index 2. -/
theorem c9_amended_witness :
    kiyomasa_keys_after [['P'], ['x', ',', 'y'], ['z']] 1 2 =
      (([['P'], ['x', ',', 'y'], ['z']] : List Str).set 1
          ((splitComma
            (([['P'], ['x', ',', 'y'], ['z']] : List Str).getD 1 [])).getLastD
            [])).set 2
        ((splitComma
          (([['P'], ['x', ',', 'y'], ['z']] : List Str).getD 2 [])).getLastD
          []) :=
  c9_amended [['P'], ['x', ',', 'y'], ['z']] 1 2 (by decide)

end Terracotta
